import Mathlib

/-!
Verification development for a Movebank fetch/view toolkit consisting of a
data fetcher (`fetch_movebank_data.py`) and a GPS track viewer
(`gps_viewer.py`).  The relevant program logic — timestamp normalization,
the day/night classifier, the haversine distance, the date-range filter,
the incremental playback state machine, and the per-entity structure of the
study fetch — is embedded shallowly below.  Strings are modelled as lists
of characters; timestamps as integers in seconds; the remote service, the
timezone library and the solar library are modelled as oracles whose
success or failure is an explicit parameter.
-/

/-! ## Timestamp normalizer (`_convert_timestamp` in `fetch_movebank_data.py`) -/

/-- Characters removed by the chained `str.replace` calls: space, hyphen, colon. -/
def isSeparator (c : Char) : Bool := c = ' ' || c = '-' || c = ':'

/-- Result of `s.replace(' ', '').replace('-', '').replace(':', '')`. -/
def stripSep (l : List Char) : List Char := l.filter (fun c => !(isSeparator c))

/-- Decimal digit character for `n < 10` (clamped to `'9'` above). -/
def digitChar : Nat → Char
  | 0 => '0'
  | 1 => '1'
  | 2 => '2'
  | 3 => '3'
  | 4 => '4'
  | 5 => '5'
  | 6 => '6'
  | 7 => '7'
  | 8 => '8'
  | _ => '9'

/-- Numeric value of a digit character. -/
def charVal (c : Char) : Nat := c.toNat - 48

/-- Two-digit zero-padded decimal rendering, as in `strftime` `%m`, `%d`, `%H`, `%M`, `%S`. -/
def pad2 (n : Nat) : List Char := [digitChar (n / 10 % 10), digitChar (n % 10)]

/-- Four-digit zero-padded decimal rendering, as in `strftime` `%Y`. -/
def pad4 (n : Nat) : List Char :=
  [digitChar (n / 1000 % 10), digitChar (n / 100 % 10), digitChar (n / 10 % 10),
    digitChar (n % 10)]

/-- Gregorian leap-year rule used by the `datetime` calendar. -/
def isLeapYear (y : Nat) : Bool := y % 4 = 0 && (y % 100 != 0 || y % 400 = 0)

/-- Number of days in a month of the proleptic Gregorian calendar. -/
def daysInMonth (y m : Nat) : Nat :=
  if m = 2 then (if isLeapYear y then 29 else 28)
  else if m = 4 ∨ m = 6 ∨ m = 9 ∨ m = 11 then 30
  else 31

/-- Validity of a calendar date as accepted by `datetime` (year 1–9999). -/
def ValidDate (y m d : Nat) : Prop :=
  1 ≤ y ∧ y ≤ 9999 ∧ 1 ≤ m ∧ m ≤ 12 ∧ 1 ≤ d ∧ d ≤ daysInMonth y m

instance (y m d : Nat) : Decidable (ValidDate y m d) := by
  unfold ValidDate; infer_instance

/-- Model of `datetime.strptime(s, '%Y-%m-%d')` on canonical zero-padded
ten-character input: four digit year, hyphen, two digit month, hyphen, two
digit day, with the calendar validity check the constructor performs. -/
def parseDate10 (l : List Char) : Option (Nat × Nat × Nat) :=
  match l with
  | [y1, y2, y3, y4, s1, m1, m2, s2, d1, d2] =>
    if s1 = '-' ∧ s2 = '-' ∧ y1.isDigit ∧ y2.isDigit ∧ y3.isDigit ∧ y4.isDigit ∧
        m1.isDigit ∧ m2.isDigit ∧ d1.isDigit ∧ d2.isDigit then
      let y := 1000 * charVal y1 + 100 * charVal y2 + 10 * charVal y3 + charVal y4
      let m := 10 * charVal m1 + charVal m2
      let d := 10 * charVal d1 + charVal d2
      if ValidDate y m d then some (y, m, d) else none
    else none
  | _ => none

/-- Model of `datetime.strptime(s, '%Y-%m-%d %H:%M:%S')` on canonical
zero-padded nineteen-character input. -/
def parseDateTime19 (l : List Char) : Option (Nat × Nat × Nat × Nat × Nat × Nat) :=
  match l with
  | [y1, y2, y3, y4, s1, m1, m2, s2, d1, d2, sp, h1, h2, c1, n1, n2, c2, e1, e2] =>
    if s1 = '-' ∧ s2 = '-' ∧ sp = ' ' ∧ c1 = ':' ∧ c2 = ':' ∧ y1.isDigit ∧ y2.isDigit ∧
        y3.isDigit ∧ y4.isDigit ∧ m1.isDigit ∧ m2.isDigit ∧ d1.isDigit ∧ d2.isDigit ∧
        h1.isDigit ∧ h2.isDigit ∧ n1.isDigit ∧ n2.isDigit ∧ e1.isDigit ∧ e2.isDigit then
      let y := 1000 * charVal y1 + 100 * charVal y2 + 10 * charVal y3 + charVal y4
      let m := 10 * charVal m1 + charVal m2
      let d := 10 * charVal d1 + charVal d2
      let hh := 10 * charVal h1 + charVal h2
      let nn := 10 * charVal n1 + charVal n2
      let ee := 10 * charVal e1 + charVal e2
      if ValidDate y m d ∧ hh ≤ 23 ∧ nn ≤ 59 ∧ ee ≤ 59 then some (y, m, d, hh, nn, ee)
      else none
    else none
  | _ => none

/-- Model of `datetime.strptime(s, '%Y-%m-%d %H:%M')` on canonical
zero-padded sixteen-character input. -/
def parseDateTime16 (l : List Char) : Option (Nat × Nat × Nat × Nat × Nat) :=
  match l with
  | [y1, y2, y3, y4, s1, m1, m2, s2, d1, d2, sp, h1, h2, c1, n1, n2] =>
    if s1 = '-' ∧ s2 = '-' ∧ sp = ' ' ∧ c1 = ':' ∧ y1.isDigit ∧ y2.isDigit ∧
        y3.isDigit ∧ y4.isDigit ∧ m1.isDigit ∧ m2.isDigit ∧ d1.isDigit ∧ d2.isDigit ∧
        h1.isDigit ∧ h2.isDigit ∧ n1.isDigit ∧ n2.isDigit then
      let y := 1000 * charVal y1 + 100 * charVal y2 + 10 * charVal y3 + charVal y4
      let m := 10 * charVal m1 + charVal m2
      let d := 10 * charVal d1 + charVal d2
      let hh := 10 * charVal h1 + charVal h2
      let nn := 10 * charVal n1 + charVal n2
      if ValidDate y m d ∧ hh ≤ 23 ∧ nn ≤ 59 then some (y, m, d, hh, nn)
      else none
    else none
  | _ => none

/-- Embedding of `MovebankDataFetcher._convert_timestamp`.  Empty input
(`if not timestamp_str`) yields `none`, the "no bound" signal.  If the
input stripped of spaces, hyphens and colons is entirely digits and at
least 14 characters long, the stripped string is left-justified to 17
characters with `'0'` (`str.ljust`).  Otherwise the three `strptime`
patterns are tried, guarded by length (and hyphen count for the first),
each formatted with `strftime('%Y%m%d%H%M%S000')` on success; a parse
failure (`ValueError`) or no matching pattern returns the input unchanged. -/
def convert_timestamp (l : List Char) : Option (List Char) :=
  if l = [] then none
  else if (stripSep l).all Char.isDigit ∧ 14 ≤ (stripSep l).length then
    some (stripSep l ++ List.replicate (17 - (stripSep l).length) '0')
  else if l.length = 10 ∧ l.count '-' = 2 then
    match parseDate10 l with
    | some (y, m, d) => some (pad4 y ++ pad2 m ++ pad2 d ++ List.replicate 9 '0')
    | none => some l
  else if l.length = 19 then
    match parseDateTime19 l with
    | some (y, m, d, hh, nn, ee) =>
      some (pad4 y ++ pad2 m ++ pad2 d ++ pad2 hh ++ pad2 nn ++ pad2 ee ++
        List.replicate 3 '0')
    | none => some l
  else if l.length = 16 then
    match parseDateTime16 l with
    | some (y, m, d, hh, nn) =>
      some (pad4 y ++ pad2 m ++ pad2 d ++ pad2 hh ++ pad2 nn ++ List.replicate 5 '0')
    | none => some l
  else some l

/-- Canonical rendering of a calendar date in the `YYYY-MM-DD` input form. -/
def formatDate (y m d : Nat) : List Char :=
  pad4 y ++ ['-'] ++ pad2 m ++ ['-'] ++ pad2 d

/-- Reading back the calendar date from the first eight characters of a
canonical `YYYYMMDDHHMMSSmmm` output. -/
def parseYMD8 (l : List Char) : Option (Nat × Nat × Nat) :=
  match l with
  | [a, b, c, d, e, f, g, h] =>
    some (1000 * charVal a + 100 * charVal b + 10 * charVal c + charVal d,
      10 * charVal e + charVal f, 10 * charVal g + charVal h)
  | _ => none

theorem digitChar_isDigit (n : Nat) : (digitChar n).isDigit = true := by
  rcases n with _ | _ | _ | _ | _ | _ | _ | _ | _ | n <;> rfl

theorem isSeparator_digitChar (n : Nat) : isSeparator (digitChar n) = false := by
  rcases n with _ | _ | _ | _ | _ | _ | _ | _ | _ | n <;> rfl

theorem charVal_digitChar (n : Nat) (h : n < 10) : charVal (digitChar n) = n := by
  interval_cases n <;> rfl

theorem stripSep_length_le (l : List Char) : (stripSep l).length ≤ l.length :=
  List.length_filter_le _ l

theorem digitChar_beq_dash (n : Nat) : (digitChar n == '-') = false := by
  rcases n with _ | _ | _ | _ | _ | _ | _ | _ | _ | n <;> rfl

theorem isSeparator_dash : isSeparator '-' = true := rfl

theorem daysInMonth_le (y m : Nat) : daysInMonth y m ≤ 31 := by
  unfold daysInMonth
  split
  · split <;> norm_num
  · split <;> norm_num

theorem charVal_digitChar_mod (n : Nat) : charVal (digitChar (n % 10)) = n % 10 :=
  charVal_digitChar _ (Nat.mod_lt _ (by norm_num))

theorem stripSep_formatDate (y m d : Nat) :
    stripSep (formatDate y m d) = pad4 y ++ pad2 m ++ pad2 d := by
  simp [formatDate, stripSep, pad4, pad2, isSeparator_digitChar, isSeparator_dash]

theorem count_dash_formatDate (y m d : Nat) : (formatDate y m d).count '-' = 2 := by
  simp [formatDate, pad4, pad2, List.count_cons, digitChar_beq_dash]

theorem parseDate10_formatDate (y m d : Nat) (h : ValidDate y m d) :
    parseDate10 (formatDate y m d) = some (y, m, d) := by
  have hy : y ≤ 9999 := h.2.1
  have hm : m ≤ 12 := h.2.2.2.1
  have hd : d ≤ 31 := le_trans h.2.2.2.2.2 (daysInMonth_le y m)
  have hfd : formatDate y m d =
      [digitChar (y / 1000 % 10), digitChar (y / 100 % 10), digitChar (y / 10 % 10),
        digitChar (y % 10), '-', digitChar (m / 10 % 10), digitChar (m % 10), '-',
        digitChar (d / 10 % 10), digitChar (d % 10)] := by
    simp [formatDate, pad4, pad2]
  rw [hfd]
  have hY : 1000 * charVal (digitChar (y / 1000 % 10)) +
      100 * charVal (digitChar (y / 100 % 10)) + 10 * charVal (digitChar (y / 10 % 10)) +
      charVal (digitChar (y % 10)) = y := by
    rw [show y / 1000 % 10 = y / 1000 % 10 % 10 by omega] at *
    rw [charVal_digitChar_mod, charVal_digitChar_mod, charVal_digitChar_mod,
      charVal_digitChar_mod]
    omega
  have hM : 10 * charVal (digitChar (m / 10 % 10)) + charVal (digitChar (m % 10)) = m := by
    rw [charVal_digitChar_mod, charVal_digitChar_mod]
    omega
  have hD : 10 * charVal (digitChar (d / 10 % 10)) + charVal (digitChar (d % 10)) = d := by
    rw [charVal_digitChar_mod, charVal_digitChar_mod]
    omega
  simp [parseDate10, digitChar_isDigit, hY, hM, hD, h]

theorem convert_timestamp_formatDate (y m d : Nat) (h : ValidDate y m d) :
    convert_timestamp (formatDate y m d) =
      some (pad4 y ++ pad2 m ++ pad2 d ++ List.replicate 9 '0') := by
  have hne : formatDate y m d ≠ [] := by simp [formatDate, pad4, pad2]
  have hlen8 : (stripSep (formatDate y m d)).length = 8 := by
    rw [stripSep_formatDate]; simp [pad4, pad2]
  have hlen10 : (formatDate y m d).length = 10 := by simp [formatDate, pad4, pad2]
  unfold convert_timestamp
  rw [if_neg hne, if_neg (fun hc => by have := hc.2; omega),
    if_pos ⟨hlen10, count_dash_formatDate y m d⟩, parseDate10_formatDate y m d h]

/-- C5: for every valid `YYYY-MM-DD` date string (10 characters, two
hyphens), the timestamp normalizer returns a string of length exactly 17
whose last three characters are `000` and whose first eight characters
re-parse to the same calendar year, month and day. -/
theorem C5_date_normalizer (y m d : Nat) (h : ValidDate y m d) :
    ∃ out, convert_timestamp (formatDate y m d) = some out ∧ out.length = 17 ∧
      out.drop 14 = ['0', '0', '0'] ∧ parseYMD8 (out.take 8) = some (y, m, d) := by
  have hy : y ≤ 9999 := h.2.1
  have hm : m ≤ 12 := h.2.2.2.1
  have hd : d ≤ 31 := le_trans h.2.2.2.2.2 (daysInMonth_le y m)
  refine ⟨pad4 y ++ pad2 m ++ pad2 d ++ List.replicate 9 '0',
    convert_timestamp_formatDate y m d h, ?_, ?_, ?_⟩
  · simp [pad4, pad2]
  · simp only [pad4, pad2, List.replicate, List.cons_append, List.nil_append]
    rfl
  · simp only [pad4, pad2, List.replicate, List.cons_append, List.nil_append]
    rw [show List.take 8 [digitChar (y / 1000 % 10), digitChar (y / 100 % 10),
      digitChar (y / 10 % 10), digitChar (y % 10), digitChar (m / 10 % 10),
      digitChar (m % 10), digitChar (d / 10 % 10), digitChar (d % 10), '0', '0', '0',
      '0', '0', '0', '0', '0', '0'] = [digitChar (y / 1000 % 10),
      digitChar (y / 100 % 10), digitChar (y / 10 % 10), digitChar (y % 10),
      digitChar (m / 10 % 10), digitChar (m % 10), digitChar (d / 10 % 10),
      digitChar (d % 10)] from rfl]
    rw [show y / 1000 % 10 = y / 1000 % 10 % 10 by omega]
    simp only [parseYMD8, charVal_digitChar_mod, Option.some.injEq, Prod.mk.injEq]
    refine ⟨by omega, by omega, by omega⟩

/-- Witness for C5 at the concrete date 2024-05-17. -/
theorem C5_date_normalizer_wit :
    ValidDate 2024 5 17 ∧
      ∃ out, convert_timestamp (formatDate 2024 5 17) = some out ∧ out.length = 17 ∧
        out.drop 14 = ['0', '0', '0'] ∧ parseYMD8 (out.take 8) = some (2024, 5, 17) :=
  ⟨by decide, C5_date_normalizer 2024 5 17 (by decide)⟩

theorem isSeparator_eq_false_of_isDigit (c : Char) (h : c.isDigit = true) :
    isSeparator c = false := by
  have h1 : c ≠ ' ' := by rintro rfl; exact absurd h (by decide)
  have h2 : c ≠ '-' := by rintro rfl; exact absurd h (by decide)
  have h3 : c ≠ ':' := by rintro rfl; exact absurd h (by decide)
  simp [isSeparator, h1, h2, h3]

/-- C6: for every input whose form after removing spaces, hyphens and
colons is entirely digits and at least 14 characters long, the normalizer
returns the stripped string right-padded with zeros to length 17; in
particular an already-17-digit numeric input is returned unchanged. -/
theorem C6_digit_passthrough :
    (∀ l : List Char, (stripSep l).all Char.isDigit = true → 14 ≤ (stripSep l).length →
      convert_timestamp l = some (stripSep l ++ List.replicate (17 - (stripSep l).length) '0'))
    ∧ ∀ l : List Char, l.all Char.isDigit = true → l.length = 17 →
      convert_timestamp l = some l := by
  have main : ∀ l : List Char, (stripSep l).all Char.isDigit = true →
      14 ≤ (stripSep l).length →
      convert_timestamp l =
        some (stripSep l ++ List.replicate (17 - (stripSep l).length) '0') := by
    intro l hdig hlen
    have hne : l ≠ [] := by
      rintro rfl
      simp [stripSep] at hlen
    unfold convert_timestamp
    rw [if_neg hne, if_pos ⟨hdig, hlen⟩]
  refine ⟨main, fun l hdig hlen => ?_⟩
  have hss : stripSep l = l := by
    unfold stripSep
    apply List.filter_eq_self.mpr
    intro a ha
    have hda : a.isDigit = true := List.all_eq_true.mp hdig a ha
    simp [isSeparator_eq_false_of_isDigit a hda]
  have h1 := main l (by rw [hss]; exact hdig) (by rw [hss, hlen]; norm_num)
  rw [h1, hss, hlen]
  simp

/-- Witness for C6 at a concrete 17-digit input. -/
theorem C6_digit_passthrough_wit :
    (['2', '0', '2', '4', '0', '1', '0', '2', '0', '3', '0', '4', '0', '5', '1', '2',
      '3'].all Char.isDigit = true) ∧
      convert_timestamp ['2', '0', '2', '4', '0', '1', '0', '2', '0', '3', '0', '4',
        '0', '5', '1', '2', '3'] = some ['2', '0', '2', '4', '0', '1', '0', '2', '0',
        '3', '0', '4', '0', '5', '1', '2', '3'] :=
  ⟨by decide, C6_digit_passthrough.2 _ (by decide) (by decide)⟩

/-! ## Incremental playback state machine (`gps_viewer.py`)

The viewer keeps `animation_index` (the playback cursor), the flag
`animation_playing`, and a pending single-shot timer handle
`animation_timer`.  The operations below embed `animate_step`,
`toggle_animation`, `reset_animation` and `on_position_changed` for a fixed
filtered-view length `len`.  Python computes the seek index as
`int((position / 100) * max_index)` over IEEE-754 doubles; the two
round-to-nearest-even roundings (of `position / 100` and of the product)
are embedded exactly below, so the pre-clamp value matches CPython bit for
bit (for example it is 28, not 29, at position 29 on a 101-point track). -/

structure AnimSt where
  index : Nat
  playing : Bool
  timerPending : Bool
deriving DecidableEq, Repr

/-- Embedding of `animate_step`: a no-op when not playing; past the end of
the track it resets; otherwise it advances the cursor and schedules the
next tick. -/
def animate_step (len : Nat) (s : AnimSt) : AnimSt :=
  if s.playing = false then s
  else if len ≤ s.index then { index := 0, playing := false, timerPending := false }
  else { index := s.index + 1, playing := true, timerPending := true }

/-- Embedding of `toggle_animation`: stopping cancels the pending timer;
starting sets the playing flag and immediately runs one animation step. -/
def toggle_animation (len : Nat) (s : AnimSt) : AnimSt :=
  if s.playing then { s with playing := false, timerPending := false }
  else animate_step len { s with playing := true }

/-- Embedding of `reset_animation`: cursor 0, not playing, timer cancelled. -/
def reset_animation : AnimSt := { index := 0, playing := false, timerPending := false }

/-- Firing of the pending single-shot timer: the handle is consumed, then
`animate_step` runs. -/
def tickStep (len : Nat) (s : AnimSt) : AnimSt :=
  animate_step len { s with timerPending := false }

/-- Fuel-bounded binary logarithm (structurally recursive so that the
kernel can evaluate it). -/
def natLog2F : Nat → Nat → Nat
  | 0, _ => 0
  | fuel + 1, n => if 2 ≤ n then natLog2F fuel (n / 2) + 1 else 0

/-- Floor of the base-2 logarithm of a positive natural number (`n` itself
is always enough fuel). -/
def natLog2 (n : Nat) : Nat := natLog2F n n

/-- IEEE-754 round-half-to-even of the fraction `a / b` (for `b > 0`) to
the nearest integer. -/
def rheNat (a b : Nat) : Nat :=
  let q := a / b
  let r := a % b
  if 2 * r < b then q else if b < 2 * r then q + 1 else if q % 2 = 0 then q else q + 1

/-- Floor of the base-2 logarithm of the positive fraction `a / b`: the
unique `e` with `2 ^ e ≤ a / b < 2 ^ (e + 1)`. -/
def floorLog2Frac (a b : Nat) : Int :=
  if b ≤ a then (natLog2 (a / b) : Int)
  else
    let k := natLog2 (b / a)
    if b ≤ a * 2 ^ k then -(k : Int) else -((k : Int) + 1)

/-- Nearest binary64 value of `p / 100` (Python float true division) as a
dyadic pair `(m, t)` denoting `m * 2 ^ t`: the 53-bit mantissa is the
round-to-nearest-even of `p / 100` scaled to `[2^52, 2^53)`. -/
def flDiv100 (p : Nat) : Nat × Int :=
  if p = 0 then (0, 0)
  else
    let e : Int := floorLog2Frac p 100
    let m := if e ≤ 52 then rheNat (p * 2 ^ (52 - e).toNat) 100
      else rheNat p (100 * 2 ^ (e - 52).toNat)
    (m, e - 52)

/-- Nearest binary64 value of a dyadic `(m, t)` times a natural number:
the exact product is rounded once to 53 significant bits, which is the
CPython `float * int` semantics whenever the integer converts to double
exactly (any magnitude below `2^53`, far beyond any in-memory track). -/
def flMulNat (x : Nat × Int) (k : Nat) : Nat × Int :=
  let M := x.1 * k
  if M = 0 then (0, 0)
  else
    let L := natLog2 M
    if L ≤ 52 then (M, x.2)
    else (rheNat M (2 ^ (L - 52)), x.2 + (L - 52))

/-- Floor (= Python `int()` truncation for non-negative values) of a
dyadic pair. -/
def dyFloor (m : Nat) (t : Int) : Nat :=
  if 0 ≤ t then m * 2 ^ t.toNat else m / 2 ^ (-t).toNat

/-- Value of the Python expression `int((position / 100) * max_index)`
under exact IEEE-754 binary64 semantics: round `position / 100` to the
nearest double, multiply by `max_index` with one more rounding, truncate. -/
def pyScaledIndex (p maxIndex : Nat) : Nat :=
  dyFloor (flMulNat (flDiv100 p) maxIndex).1 (flMulNat (flDiv100 p) maxIndex).2

/-- Embedding of `on_position_changed`: a no-op on an empty filtered view;
otherwise active playback is stopped via `toggle_animation` and the cursor
becomes `int((position / 100) * max_index)` — the double-precision value,
`pyScaledIndex` — clamped to `[1, max_index]`. -/
def on_position_changed (len : Nat) (p : Nat) (s : AnimSt) : AnimSt :=
  if len = 0 then s
  else
    let s1 := if s.playing then toggle_animation len s else s
    { s1 with index := max 1 (min (pyScaledIndex p (len - 1)) (len - 1)) }

/-- Single transitions of the playback state machine on a fixed filtered
view of length `len`: play/pause toggle, timer tick (only when a timer is
pending), reset, and manual seek to a slider position in `[0, 100]`. -/
inductive PlayStep (len : Nat) : AnimSt → AnimSt → Prop where
  | toggle (s : AnimSt) : PlayStep len s (toggle_animation len s)
  | tick (s : AnimSt) (h : s.timerPending = true) : PlayStep len s (tickStep len s)
  | reset (s : AnimSt) : PlayStep len s reset_animation
  | seek (s : AnimSt) (p : Nat) (h : p ≤ 100) : PlayStep len s (on_position_changed len p s)

/-- States reachable from the initial state (cursor 0, idle) by any
interleaving of playback operations. -/
def AnimReachable (len : Nat) (s : AnimSt) : Prop :=
  Relation.ReflTransGen (PlayStep len)
    { index := 0, playing := false, timerPending := false } s

/-- Modelled from the spec: the claimed manual-seek cursor
`round(position/100 × (length−1))` clamped to `[1, length−1]`, with
round-half-up rounding, for comparison against the code. -/
def spec_seek_cursor (len p : Nat) : Nat :=
  max 1 (min ((2 * p * (len - 1) + 100) / 200) (len - 1))

theorem animate_step_index_le (len : Nat) (s : AnimSt) (h : s.index ≤ len) :
    (animate_step len s).index ≤ len := by
  unfold animate_step
  split
  · exact h
  · split
    · simp
    · rename_i hlt
      simp
      omega

theorem toggle_index_le (len : Nat) (s : AnimSt) (h : s.index ≤ len) :
    (toggle_animation len s).index ≤ len := by
  unfold toggle_animation
  split
  · exact h
  · exact animate_step_index_le len _ h

theorem seek_index_le (len p : Nat) (s : AnimSt) (h : s.index ≤ len) :
    (on_position_changed len p s).index ≤ len := by
  unfold on_position_changed
  split
  · exact h
  · rename_i h0
    show max 1 (min (pyScaledIndex p (len - 1)) (len - 1)) ≤ len
    have h1 : min (pyScaledIndex p (len - 1)) (len - 1) ≤ len - 1 := min_le_right _ _
    exact max_le (by omega) (by omega)

theorem pyScaledIndex_zero (p : Nat) : pyScaledIndex p 0 = 0 := by
  simp [pyScaledIndex, flMulNat, dyFloor]

/-- Validation of the float embedding against traced CPython results on a
101-point track: binary rounding makes positions 29, 57 and 58 land one
below the exact rational floor, while position 50 is float-exact. -/
theorem pyScaledIndex_float_eval :
    pyScaledIndex 29 100 = 28 ∧ pyScaledIndex 57 100 = 56 ∧
      pyScaledIndex 58 100 = 57 ∧ pyScaledIndex 50 100 = 50 := by
  refine ⟨by decide, by decide, by decide, by decide⟩

/-- C2 counterexample: on a 3-point track a seek to slider position 75
lands on cursor 1 (the float product is exactly 1.5 and `int()` truncates),
while the claimed `round(position/100 × (length−1))`, clamped the same way,
gives 2. -/
theorem C2_manual_seek_cex :
    (on_position_changed 3 75 reset_animation).index = 1 ∧ spec_seek_cursor 3 75 = 2 := by
  constructor <;> decide

/-- C2 (amended): a manual seek on a filtered view of length > 1 sets the
cursor to the double-precision truncation `int((position/100) × (length−1))`
— which binary rounding can place one below the exact
`floor(position × (length−1) / 100)` — clamped to `[1, length−1]`, so the
cursor is never 0 and active playback with its pending timer is cancelled;
a seek to position 50 on a 101-point track is float-exact and yields
cursor 50. -/
theorem C2_manual_seek (len p : Nat) (s : AnimSt) (hlen : 1 < len) (_hp : p ≤ 100) :
    (on_position_changed len p s).index =
      max 1 (min (pyScaledIndex p (len - 1)) (len - 1)) ∧
    1 ≤ (on_position_changed len p s).index ∧
    (on_position_changed len p s).index ≤ len - 1 ∧
    (on_position_changed len p s).playing = false ∧
    (s.playing = true → (on_position_changed len p s).timerPending = false) ∧
    (on_position_changed 101 50 s).index = 50 := by
  have h0 : len ≠ 0 := by omega
  have hidx : (on_position_changed len p s).index =
      max 1 (min (pyScaledIndex p (len - 1)) (len - 1)) := by
    cases hs : s.playing <;> simp [on_position_changed, h0, hs, toggle_animation]
  refine ⟨hidx, ?_, ?_, ?_, ?_, ?_⟩
  · rw [hidx]; exact le_max_left _ _
  · rw [hidx]
    have h1 : min (pyScaledIndex p (len - 1)) (len - 1) ≤ len - 1 := min_le_right _ _
    exact max_le (by omega) (by omega)
  · cases hs : s.playing <;> simp [on_position_changed, h0, hs, toggle_animation]
  · intro hps
    simp [on_position_changed, h0, hps, toggle_animation]
  · have h50 : (on_position_changed 101 50 s).index =
        max 1 (min (pyScaledIndex 50 100) 100) := by
      cases hs : s.playing <;> simp [on_position_changed, hs, toggle_animation]
    rw [h50]
    decide

/-- Witness for C2 at a 101-point track and slider position 50. -/
theorem C2_manual_seek_wit :
    1 < 101 ∧ 50 ≤ 100 ∧ (on_position_changed 101 50 reset_animation).index = 50 :=
  ⟨by norm_num, by norm_num,
    (C2_manual_seek 101 50 reset_animation (by norm_num) (by norm_num)).2.2.2.2.2⟩

/-- C3: in every reachable state of the playback state machine the cursor
stays within `[0, length]`, and a timer tick fired at cursor = length
resets the cursor to 0, stops playback, and schedules no further tick. -/
theorem C3_cursor_bounds :
    (∀ len s, AnimReachable len s → s.index ≤ len) ∧
    (∀ len s, s.playing = true → s.index = len → tickStep len s = reset_animation) := by
  constructor
  · intro len s h
    induction h with
    | refl => exact Nat.zero_le len
    | tail _ step ih =>
      cases step with
      | toggle => exact toggle_index_le len _ ih
      | tick hp => exact animate_step_index_le len _ ih
      | reset => exact Nat.zero_le len
      | seek p hp => exact seek_index_le len p _ ih
  · intro len s hp hi
    unfold tickStep animate_step
    simp [hp, hi, reset_animation]

/-- Witness for C3: the initial state is reachable and within bounds, and a
tick at cursor = length = 5 while playing resets the machine. -/
theorem C3_cursor_bounds_wit :
    AnimReachable 5 reset_animation ∧ reset_animation.index ≤ 5 ∧
      AnimSt.playing { index := 5, playing := true, timerPending := true } = true ∧
      tickStep 5 { index := 5, playing := true, timerPending := true } = reset_animation :=
  ⟨Relation.ReflTransGen.refl,
    C3_cursor_bounds.1 5 reset_animation Relation.ReflTransGen.refl, rfl,
    C3_cursor_bounds.2 5 _ rfl rfl⟩

/-- C10: on a single-point filtered view a manual seek always sets the
cursor to 1 (equal to the track length, exceeding length−1 = 0), never 0,
because the lower clamp to 1 is applied unconditionally; the subsequent
point lookup at cursor−1 = 0 stays within the 1-point view. -/
theorem C10_single_point_seek (p : Nat) (s : AnimSt) (_hp : p ≤ 100) :
    (on_position_changed 1 p s).index = 1 ∧
    (on_position_changed 1 p s).index ≠ 0 ∧
    (on_position_changed 1 p s).index - 1 < 1 := by
  have h : (on_position_changed 1 p s).index = 1 := by
    cases hs : s.playing <;> simp [on_position_changed, hs, toggle_animation]
  exact ⟨h, by rw [h]; decide, by rw [h]; decide⟩

/-- Witness for C10 at slider position 50. -/
theorem C10_single_point_seek_wit :
    50 ≤ 100 ∧ (on_position_changed 1 50 reset_animation).index = 1 :=
  ⟨by norm_num, (C10_single_point_seek 50 reset_animation (by norm_num)).1⟩

/-! ## Day/night classifier (`is_daytime`, `calculate_sunrise_sunset`)

The timezone conversion and the astral solar computation are external
libraries; they are modelled as oracle fields of an environment.  `convOk`
says whether the conversion to the reference timezone (and the hour
projection) succeeds — its failure models the exception caught by the bare
`except:` of `is_daytime`.  `solar` is the astral computation: an error
models both `ImportError` and any other exception, which
`calculate_sunrise_sunset` itself catches, returning no value. -/

structure DNEnv where
  rawHour : Nat
  convOk : Bool
  kenyanHour : Nat
  kenyanInstant : Int
  solar : Except Unit (Int × Int)

/-- Embedding of `calculate_sunrise_sunset`: the solar computation result
on success, and no value when the library is missing or raises. -/
def calculate_sunrise_sunset (solar : Except Unit (Int × Int)) : Option (Int × Int) :=
  match solar with
  | Except.ok rs => some rs
  | Except.error _ => none

/-- Fixed-hour daytime test of the code: `6 <= hour <= 18`. -/
def fixedDayWindow (hour : Nat) : Bool := decide (6 ≤ hour ∧ hour ≤ 18)

/-- Body of the `try:` block of `is_daytime`: convert to the reference
timezone (an exception propagates), then compare against the solar
sunrise/sunset when available, else apply the fixed-hour window to the
converted hour. -/
def is_daytimeBody (e : DNEnv) : Except Unit Bool :=
  if e.convOk = false then Except.error ()
  else
    match calculate_sunrise_sunset e.solar with
    | some (sunrise, sunset) =>
      Except.ok (decide (sunrise ≤ e.kenyanInstant ∧ e.kenyanInstant ≤ sunset))
    | none => Except.ok (fixedDayWindow e.kenyanHour)

/-- Embedding of `is_daytime` as seen by callers: the bare `except:`
handler turns any body failure into the fixed-hour window applied to the
raw, un-converted timestamp hour. -/
def is_daytime (e : DNEnv) : Bool :=
  match is_daytimeBody e with
  | Except.ok b => b
  | Except.error _ => fixedDayWindow e.rawHour

/-- Caller-visible result of `is_daytime` with exception propagation made
explicit: the handler never re-raises, so this is always a value. -/
def is_daytimeE (e : DNEnv) : Except Unit Bool :=
  match is_daytimeBody e with
  | Except.ok b => Except.ok b
  | Except.error _ => Except.ok (fixedDayWindow e.rawHour)

/-- Environment in which the solar computation fails and the converted
local hour is 18 (the upper edge of the fixed window). -/
def dnEnvHour18 : DNEnv :=
  { rawHour := 0, convOk := true, kenyanHour := 18, kenyanInstant := 0,
    solar := Except.error () }

/-- Environment in which the solar computation fails and the converted
local hour is 12. -/
def dnEnvHour12 : DNEnv :=
  { rawHour := 0, convOk := true, kenyanHour := 12, kenyanInstant := 0,
    solar := Except.error () }

/-- Environment in which the timezone conversion itself fails and the raw
timestamp hour is 3. -/
def dnEnvConvFail3 : DNEnv :=
  { rawHour := 3, convOk := false, kenyanHour := 0, kenyanInstant := 0,
    solar := Except.error () }

/-- C1 counterexample: with the solar computation failing and a converted
local hour of 18, the classifier returns day, although 18 is outside the
claimed half-open window `[6, 18)`. -/
theorem C1_fixed_window_cex :
    is_daytime dnEnvHour18 = true ∧ ¬(6 ≤ 18 ∧ 18 < 18) := by
  constructor <;> decide

/-- C1 (amended): when the solar computation is unavailable or fails, the
classifier returns day exactly when the converted local hour lies in the
closed window `[6, 18]` — inclusive at both 6 and 18 — and the same closed
window applied to the raw timestamp hour decides the result on any further
unexpected failure. -/
theorem C1_fixed_window (e : DNEnv) :
    (e.convOk = true → e.solar = Except.error () →
      (is_daytime e = true ↔ 6 ≤ e.kenyanHour ∧ e.kenyanHour ≤ 18)) ∧
    (e.convOk = false →
      (is_daytime e = true ↔ 6 ≤ e.rawHour ∧ e.rawHour ≤ 18)) := by
  constructor
  · intro hc hs
    simp [is_daytime, is_daytimeBody, calculate_sunrise_sunset, fixedDayWindow, hc, hs]
  · intro hc
    simp [is_daytime, is_daytimeBody, fixedDayWindow, hc]

/-- Witness for C1: with the solar oracle failing, local hour 12 is
classified as day; with the conversion failing, raw hour 3 is night. -/
theorem C1_fixed_window_wit :
    (is_daytime dnEnvHour12 = true ↔ 6 ≤ dnEnvHour12.kenyanHour ∧
      dnEnvHour12.kenyanHour ≤ 18) ∧
      (is_daytime dnEnvConvFail3 = true ↔ 6 ≤ dnEnvConvFail3.rawHour ∧
        dnEnvConvFail3.rawHour ≤ 18) :=
  ⟨(C1_fixed_window dnEnvHour12).1 rfl rfl, (C1_fixed_window dnEnvConvFail3).2 rfl⟩

/-- C4: the day/night classifier is total — in every combination of
timezone-conversion and solar-computation failures it returns a boolean
and never propagates an exception to the caller. -/
theorem C4_classifier_total (e : DNEnv) : is_daytimeE e = Except.ok (is_daytime e) := by
  unfold is_daytimeE is_daytime
  cases is_daytimeBody e <;> rfl

/-! ## Haversine distance (`haversine_distance` in `gps_viewer.py`)

The code computes over machine floats; the formula itself is embedded over
the reals, with `radians`, the haversine term, and the final scaling by the
Earth radius 6371 km exactly as written in the source. -/

/-- Degree-to-radian conversion (`math.radians`). -/
noncomputable def radians (x : ℝ) : ℝ := x * Real.pi / 180

/-- Embedding of `haversine_distance`: `a` is the haversine term,
`c = 2 * asin(sqrt(a))`, and the result is `c * 6371` kilometers. -/
noncomputable def haversine_distance (lat1 lon1 lat2 lon2 : ℝ) : ℝ :=
  2 * Real.arcsin (Real.sqrt (Real.sin ((radians lat2 - radians lat1) / 2) ^ 2 +
    Real.cos (radians lat1) * Real.cos (radians lat2) *
      Real.sin ((radians lon2 - radians lon1) / 2) ^ 2)) * 6371

theorem sin_half_sub_sq (x y : ℝ) :
    Real.sin ((x - y) / 2) ^ 2 = Real.sin ((y - x) / 2) ^ 2 := by
  have h : (x - y) / 2 = -((y - x) / 2) := by ring
  rw [h, Real.sin_neg]
  ring

/-- C7: the haversine distance is symmetric in its two points, and the
distance from any point to itself is zero. -/
theorem C7_haversine :
    (∀ lat1 lon1 lat2 lon2 : ℝ,
      haversine_distance lat1 lon1 lat2 lon2 = haversine_distance lat2 lon2 lat1 lon1) ∧
    ∀ lat lon : ℝ, haversine_distance lat lon lat lon = 0 := by
  constructor
  · intro lat1 lon1 lat2 lon2
    unfold haversine_distance
    rw [sin_half_sub_sq (radians lat2) (radians lat1),
      sin_half_sub_sq (radians lon2) (radians lon1),
      mul_comm (Real.cos (radians lat1)) (Real.cos (radians lat2))]
  · intro lat lon
    simp [haversine_distance]

/-! ## Date-range filter (`filter_data` in `gps_viewer.py`)

A loaded GPS table is a list of rows with subject identifier, timestamp
(seconds), and coordinates.  `filter_data` keeps the selected subject, then
the rows with `start_date <= t < end_date + 1 day` where both bounds parse
to start-of-day instants, then sorts by timestamp. -/

structure TrackRow where
  ident : String
  ts : Int
  lat : Int
  lon : Int
deriving DecidableEq, Repr

/-- Length of `timedelta(days=1)` in seconds. -/
def oneDay : Int := 86400

/-- Timestamp order on rows, the sort key of `sort_values('timestamp')`. -/
def rowLe (a b : TrackRow) : Prop := a.ts ≤ b.ts

instance : DecidableRel rowLe := fun a b => inferInstanceAs (Decidable (a.ts ≤ b.ts))

instance : IsTotal TrackRow rowLe := ⟨fun a b => Int.le_total a.ts b.ts⟩

instance : IsTrans TrackRow rowLe := ⟨fun _ _ _ h1 h2 => le_trans h1 h2⟩

/-- Embedding of `filter_data`: filter by subject, filter by the inclusive
start / exclusive start-of-day-after-end window, sort by timestamp. -/
def filter_data (gps : List TrackRow) (animal : String) (startDate endDate : Int) :
    List TrackRow :=
  List.insertionSort rowLe
    ((gps.filter (fun r => r.ident == animal)).filter
      (fun r => decide (startDate ≤ r.ts) && decide (r.ts < endDate + oneDay)))

/-- Name of the subject of the synthetic two-day track. -/
def subjectA : String := "A"

/-- Synthetic five-row track for one subject spanning two days
(timestamps within `[0, 2*86400)`). -/
def twoDayTrack : List TrackRow :=
  [{ ident := subjectA, ts := 3600, lat := 1, lon := 36 },
    { ident := subjectA, ts := 40000, lat := 1, lon := 36 },
    { ident := subjectA, ts := 90000, lat := 2, lon := 37 },
    { ident := subjectA, ts := 130000, lat := 2, lon := 37 },
    { ident := subjectA, ts := 170000, lat := 3, lon := 38 }]

/-- C8: the filtered view holds exactly the rows of the selected subject
whose timestamp lies in the inclusive-start, exclusive
start-of-day-after-end window, in non-decreasing timestamp order; and
filtering the synthetic two-day track by its exact two-day range returns
every row. -/
theorem C8_filtered_view :
    (∀ (gps : List TrackRow) (animal : String) (startDate endDate : Int),
      (filter_data gps animal startDate endDate).Perm
        (gps.filter (fun r => (r.ident == animal) &&
          (decide (startDate ≤ r.ts) && decide (r.ts < endDate + oneDay)))) ∧
      (filter_data gps animal startDate endDate).Sorted rowLe) ∧
    filter_data twoDayTrack subjectA 0 86400 = twoDayTrack := by
  refine ⟨fun gps animal startDate endDate => ⟨?_, ?_⟩, ?_⟩
  · unfold filter_data
    refine (List.perm_insertionSort rowLe _).trans ?_
    rw [List.filter_filter]
    have he : gps.filter
        (fun r => (decide (startDate ≤ r.ts) && decide (r.ts < endDate + oneDay)) &&
          (r.ident == animal)) =
        gps.filter (fun r => (r.ident == animal) &&
          (decide (startDate ≤ r.ts) && decide (r.ts < endDate + oneDay))) :=
      List.filter_congr (fun a _ => Bool.and_comm _ _)
    rw [he]
  · exact List.sorted_insertionSort rowLe _
  · decide

/-! ## Study fetch (`fetch_all_study_data` in `fetch_movebank_data.py`)

The remote service is an oracle: each metadata entity fetch either succeeds
or fails (a generic non-success makes `call_api` return `None`, so the
corresponding `get_*` helper returns `None`), the sensor-catalog fetch
yields the available sensor type ids or fails, and each per-sensor event
fetch yields an event count or fails (covering both a `None` result and an
exception caught by the per-sensor `try`).  The embedding returns the
sequence of attempted entity fetches and the list of files written. -/

structure FetchEnv where
  studyOk : Bool
  individualsOk : Bool
  tagsOk : Bool
  deploymentsOk : Bool
  sensorsResult : Option (List Nat)
  eventsResult : Nat → Option Nat

/-- Sensor type id to file-name fragment, the `sensor_names` dictionary
with its `f'sensor_{sensor_id}'` default. -/
def sensorNameTable : List (Nat × String) :=
  [(653, "gps"), (2365683, "acceleration"), (397, "bird_ring"),
    (673, "radio_transmitter"), (82798, "argos"), (2365682, "natural_mark"),
    (3886361, "solar_geolocator"), (7842954, "accessory_measurements"),
    (77740391, "barometer"), (77740402, "magnetometer"), (819073350, "orientation"),
    (1297673380, "gyroscope"), (2206221896, "heart_rate")]

/-- Lookup in the sensor-name dictionary (`sensor_names.get`). -/
def sensorName (sid : Nat) : String :=
  match sensorNameTable.find? (fun p => p.1 == sid) with
  | some p => p.2
  | none => "sensor_" ++ toString sid

/-- Sensor ids to fetch events for: the requested ids that are available in
the study, or every available id when no request was given. -/
def requestedSensorIds (sensorTypes : Option (List Nat)) (available : List Nat) :
    List Nat :=
  match sensorTypes with
  | some req => req.filter (fun s => available.contains s)
  | none => available

/-- Embedding of `fetch_all_study_data`: the pair of (attempted entity
fetches, files written).  A failed study-info fetch returns at once; each
metadata entity writes its file only on success; a failed sensor-catalog
fetch ends the run after the metadata; otherwise every computed sensor id
is attempted and an events file is written exactly when the fetch succeeds
with a positive number of events. -/
def fetch_all_study_data (env : FetchEnv) (sensorTypes : Option (List Nat))
    (fetchMetadata : Bool) : List String × List String :=
  if env.studyOk = false then (["study"], [])
  else
    let metaAttempts := if fetchMetadata then ["individuals", "tags", "deployments"] else []
    let metaFiles :=
      (if fetchMetadata && env.individualsOk then ["individuals.csv"] else []) ++
        (if fetchMetadata && env.tagsOk then ["tags.csv"] else []) ++
        (if fetchMetadata && env.deploymentsOk then ["deployments.csv"] else [])
    match env.sensorsResult with
    | none => (["study"] ++ metaAttempts ++ ["sensors"], ["study_info.csv"] ++ metaFiles)
    | some available =>
      let ids := requestedSensorIds sensorTypes available
      let eventAttempts := ids.map (fun s => "events:" ++ toString s)
      let eventFiles := ids.filterMap (fun s =>
        match env.eventsResult s with
        | some n => if 0 < n then some ("events_" ++ sensorName s ++ ".csv") else none
        | none => none)
      (["study"] ++ metaAttempts ++ ["sensors"] ++ eventAttempts,
        ["study_info.csv"] ++ metaFiles ++ ["sensors.csv"] ++ eventFiles)

/-- Environment in which the study-info fetch fails generically while every
other entity would succeed. -/
def envStudyFail : FetchEnv :=
  { studyOk := false, individualsOk := true, tagsOk := true, deploymentsOk := true,
    sensorsResult := some [653], eventsResult := fun _ => some 5 }

/-- Environment in which every metadata fetch succeeds but every per-sensor
event fetch fails. -/
def envEventsFail : FetchEnv :=
  { studyOk := true, individualsOk := true, tagsOk := true, deploymentsOk := true,
    sensorsResult := some [653], eventsResult := fun _ => none }

/-- C9 counterexample: when the study-info fetch fails generically, the
fetcher aborts at once — the remaining entities (for instance the
individuals) are never attempted, contrary to the claimed unconditional
continue-on-failure behavior. -/
theorem C9_isolation_cex :
    fetch_all_study_data envStudyFail none true = (["study"], []) ∧
      "individuals" ∉ (fetch_all_study_data envStudyFail none true).1 := by
  constructor <;> decide

/-- C9 (amended): once the study-info fetch and the sensor-catalog fetch
succeed, per-entity failures are isolated: each successfully fetched
metadata entity file is written and every computed sensor type is attempted
regardless of how any per-sensor event fetch (or any other metadata fetch)
fares. -/
theorem C9_isolation (env : FetchEnv) (available : List Nat)
    (sensorTypes : Option (List Nat)) (fetchMetadata : Bool)
    (hs : env.studyOk = true) (hc : env.sensorsResult = some available) :
    "study_info.csv" ∈ (fetch_all_study_data env sensorTypes fetchMetadata).2 ∧
    "sensors.csv" ∈ (fetch_all_study_data env sensorTypes fetchMetadata).2 ∧
    (fetchMetadata = true → env.individualsOk = true →
      "individuals.csv" ∈ (fetch_all_study_data env sensorTypes fetchMetadata).2) ∧
    (fetchMetadata = true → env.tagsOk = true →
      "tags.csv" ∈ (fetch_all_study_data env sensorTypes fetchMetadata).2) ∧
    (fetchMetadata = true → env.deploymentsOk = true →
      "deployments.csv" ∈ (fetch_all_study_data env sensorTypes fetchMetadata).2) ∧
    ∀ s ∈ requestedSensorIds sensorTypes available,
      ("events:" ++ toString s) ∈ (fetch_all_study_data env sensorTypes fetchMetadata).1 := by
  unfold fetch_all_study_data
  rw [hs, hc]
  simp only [Bool.true_eq_false, if_false]
  refine ⟨by simp, by simp, ?_, ?_, ?_, ?_⟩
  · intro hm hi
    simp [hm, hi]
  · intro hm ht
    simp [hm, ht]
  · intro hm hd
    simp [hm, hd]
  · intro s hmem
    simp only [List.mem_append]
    right
    exact List.mem_map_of_mem _ hmem

/-- Witness for C9: with every event fetch failing, the individuals file is
still written and the GPS sensor is still attempted. -/
theorem C9_isolation_wit :
    envEventsFail.studyOk = true ∧ envEventsFail.sensorsResult = some [653] ∧
      "individuals.csv" ∈ (fetch_all_study_data envEventsFail none true).2 ∧
      ∀ s ∈ requestedSensorIds none [653],
        ("events:" ++ toString s) ∈ (fetch_all_study_data envEventsFail none true).1 :=
  ⟨rfl, rfl, (C9_isolation envEventsFail [653] none true rfl rfl).2.2.1 rfl rfl,
    (C9_isolation envEventsFail [653] none true rfl rfl).2.2.2.2.2⟩
